import Mathlib

/-!
# LeftTurn agent-gateway: shallow embedding and verification

This file embeds, in Lean, the routing/orchestration core of the LeftTurn
repository (`src/agents/*.py`, `src/services/fabric_data_agent.py`,
`src/services/graph_service.py`, `src/services/search_service.py`,
`src/functions/agent_gateway/__init__.py`) and proves or refutes the
frozen claims about it.

Conventions of the embedding:
* Python strings are Lean `String`s; character-level processing works on
  `List Char`.
* Python dicts with string keys are insertion-ordered association lists
  `List (String × String)`.
* Raising an exception is modelled with `Except`; the error taxonomy is
  `AgentErr`.
* Network calls are modelled by an attempt-indexed oracle
  `backend : Nat → PostOutcome β` giving the outcome of each `requests.post`
  invocation; functions that call the network also return the number of
  invocations they performed, so "the executor was invoked zero times" is
  a provable statement.
* `date.today()` is made an explicit `PyDate` argument.
-/

set_option maxRecDepth 8000

namespace LeftTurn

/-! ## Character classes and basic string scanning -/

/-- Python regex `\w` over ASCII input: letters, digits, underscore. -/
def isWordC (c : Char) : Bool := c.isAlphanum || c == '_'

/-- Character class `[\w\.]` used for FROM/JOIN identifiers. -/
def isNameC (c : Char) : Bool := isWordC c || c == '.'

/-- Characters accepted by `[:=\s]` in `extract_param_value`. -/
def isSepC (c : Char) : Bool := c == ':' || c == '=' || c.isWhitespace

/-- Character class `[\w\-.]` for unquoted values in `extract_param_value`. -/
def isValC (c : Char) : Bool := isWordC c || c == '-' || c == '.'

/-- A single or double quote character. -/
def isQuoteC (c : Char) : Bool := c == '"' || c.toNat == 39

/-- Lower-case a character list (ASCII, as in the source's `.lower()`). -/
def lowerChars (s : List Char) : List Char := s.map Char.toLower

/-- `startsWithL s p` : `p` is an initial segment of `s` (exact characters). -/
def startsWithL : List Char → List Char → Bool
  | _, [] => true
  | [], _ :: _ => false
  | c :: cs, p :: ps => c == p && startsWithL cs ps

/-- Case-insensitive `startsWithL` (pattern expected in lower case). -/
def startsWithCI : List Char → List Char → Bool
  | _, [] => true
  | [], _ :: _ => false
  | c :: cs, p :: ps => c.toLower == p && startsWithCI cs ps

/-- `containsL s p` : `p` occurs as a contiguous substring of `s`
(Python's `p in s`). -/
def containsL : List Char → List Char → Bool
  | s, p =>
    match s with
    | [] => startsWithL [] p
    | _ :: rest => startsWithL s p || containsL rest p

/-- Python's `pat in text.lower()` for the lower-cased query text. -/
def qcontains (text pat : String) : Bool :=
  containsL (lowerChars text.toList) pat.toList

/-- Suffix of `s` strictly after the first occurrence of `p`
(`s[s.find(p) + len(p):]`), or `none` when `p` does not occur. -/
def afterSub (p : List Char) : List Char → Option (List Char)
  | [] => if startsWithL [] p then some [] else none
  | s@(_ :: rest) =>
    if startsWithL s p then some (s.drop p.length) else afterSub p rest

/-! ## `_ensure_read_only` (src/services/fabric_data_agent.py) -/

/-- The comment-stripping loop of `_ensure_read_only`: repeatedly lstrip,
drop a leading `/* ... */` block comment (to after the first `*/`, or
everything when unterminated) or a leading `-- ...` line comment (to after
the first newline, or everything), until neither applies.  `fuel` bounds
the iteration (each iteration consumes at least one character). -/
def stripLeadingComments : Nat → List Char → List Char
  | 0, s => s
  | fuel + 1, s =>
    let s1 := s.dropWhile Char.isWhitespace
    if startsWithL s1 [ '/', '*' ] then
      match afterSub [ '*', '/' ] s1 with
      | some rest => stripLeadingComments fuel rest
      | none => stripLeadingComments fuel []
    else if startsWithL s1 [ '-', '-' ] then
      match afterSub [ '\n' ] s1 with
      | some rest => stripLeadingComments fuel rest
      | none => stripLeadingComments fuel []
    else s1

/-- `_ensure_read_only` as a Boolean predicate: `true` when the first
non-comment keyword (regex `([a-zA-Z]+)`, lower-cased) is `select` or
`with`; the Python function raises `PermissionError` exactly when this
is `false`. -/
def ensureReadOnly (sql : String) : Bool :=
  let s := stripLeadingComments (sql.length + 1) sql.toList
  let kw := lowerChars (s.takeWhile Char.isAlpha)
  kw == "select".toList || kw == "with".toList

/-! ## FROM/JOIN identifier extraction and `_ensure_view_only`
(src/agents/structured_data_agent.py) -/

/-- One pass of `re.finditer(r"\bFROM\s+([\w\.]+)", sql, re.IGNORECASE)`
(with `kw` the lower-cased keyword): scan left to right; at a position
whose preceding character is not a word character, match the keyword
case-insensitively, then at least one whitespace character, then a maximal
nonempty run of `[\w.]` characters, which is collected; scanning resumes
after the collected identifier, as `finditer` does. -/
def scanKwNames (kw : List Char) : Nat → List Char → Bool → List (List Char)
  | 0, _, _ => []
  | fuel + 1, s, prevWord =>
    match s with
    | [] => []
    | c :: rest =>
      if !prevWord && startsWithCI s kw then
        let afterKw := s.drop kw.length
        let ws := afterKw.takeWhile Char.isWhitespace
        let afterWs := afterKw.drop ws.length
        let nm := afterWs.takeWhile isNameC
        if 0 < ws.length && 0 < nm.length then
          nm :: scanKwNames kw fuel (afterWs.drop nm.length) (isWordC (nm.getLastD ' '))
        else
          scanKwNames kw fuel rest (isWordC c)
      else
        scanKwNames kw fuel rest (isWordC c)

/-- All identifiers following `FROM` then all following `JOIN`, in scan
order, as collected by `_ensure_view_only` (and, as a set, by
`_extract_views_from_template`). -/
def extractNames (sql : String) : List String :=
  let cs := sql.toList
  ((scanKwNames "from".toList (cs.length + 1) cs false) ++
    (scanKwNames "join".toList (cs.length + 1) cs false)).map (fun l => String.mk l)

/-- The allow test of `_ensure_view_only`: lower-cased identifier starts
with `vw_`, or contains `.vw_` (schema-qualified view). -/
def allowName (n : String) : Bool :=
  let nl := lowerChars n.toList
  startsWithL nl "vw_".toList || containsL nl ".vw_".toList

/-- The deny test of `_ensure_view_only`: lower-cased identifier starts
with `dbo.`, `sys.` or `information_schema.`. -/
def denyName (n : String) : Bool :=
  let nl := lowerChars n.toList
  startsWithL nl "dbo.".toList || startsWithL nl "sys.".toList ||
    startsWithL nl "information_schema.".toList

/-- Per-identifier outcome of the `_ensure_view_only` loop body: an
identifier passes unless it fails the allow test and matches a deny
prefix. -/
def viewCheckName (n : String) : Bool := allowName n || !denyName n

/-- `_ensure_view_only` as a Boolean predicate; the Python function raises
`PermissionError` exactly when this is `false`. -/
def ensureViewOnly (sql : String) : Bool :=
  (extractNames sql).all viewCheckName

/-! ## The template registry (src/services/sql_templates.py), verbatim -/

/-- `VARIANCE_SUMMARY` from src/services/sql_templates.py. -/
def VARIANCE_SUMMARY : String :=
  "\nSELECT\n  Carrier AS carrier,\n  SUM(Variance) AS variance\nFROM vw_Variance\nWHERE ShipDate BETWEEN @from AND @to\nGROUP BY Carrier\nORDER BY variance DESC\n"

/-- `TEMPLATES` from src/services/sql_templates.py: the process-wide
registry of approved templates, as an insertion-ordered association
list. -/
def TEMPLATES : List (String × String) :=
  [ ("variance_summary", VARIANCE_SUMMARY),
    ("variance_by_service",
      "\nSELECT\n  ServiceLevel,\n  SUM(Variance) AS variance\nFROM vw_Variance\nWHERE ShipDate BETWEEN @from AND @to\n  AND (@carrier IS NULL OR Carrier = @carrier)\nGROUP BY ServiceLevel\nORDER BY variance DESC\n"),
    ("variance_by_sku",
      "\nSELECT\n  SKU,\n  SUM(Variance) AS variance\nFROM vw_Variance\nWHERE ShipDate BETWEEN @from AND @to\n  AND (@carrier IS NULL OR Carrier = @carrier)\nGROUP BY SKU\nORDER BY variance DESC\n"),
    ("variance_by_carrier_service",
      "\nSELECT\n  Carrier,\n  ServiceLevel,\n  SUM(Variance) AS variance\nFROM vw_Variance\nWHERE ShipDate BETWEEN @from AND @to\n  AND (@carrier IS NULL OR Carrier = @carrier)\nGROUP BY Carrier, ServiceLevel\nORDER BY variance DESC\n"),
    ("on_time_rate",
      "\nSELECT\n  CASE WHEN COUNT(*) = 0 THEN 0.0 ELSE\n    CAST(SUM(CASE WHEN OnTime = 1 THEN 1 ELSE 0 END) AS FLOAT) / CAST(COUNT(*) AS FLOAT)\n  END AS on_time_rate\nFROM vw_FactShipment\nWHERE ShipDate BETWEEN @from AND @to\n  AND (@carrier IS NULL OR Carrier = @carrier)\n"),
    ("variance_trend_by_carrier",
      "\nSELECT\n  DATEFROMPARTS(YEAR(ShipDate), MONTH(ShipDate), 1) AS Month,\n  Carrier,\n  SUM(Variance) AS variance\nFROM vw_Variance\nWHERE ShipDate BETWEEN @from AND @to\n  AND (@carrier IS NULL OR Carrier = @carrier)\nGROUP BY DATEFROMPARTS(YEAR(ShipDate), MONTH(ShipDate), 1), Carrier\nORDER BY Month, Carrier\n"),
    ("variance_trend_by_sku",
      "\nSELECT\n  DATEFROMPARTS(YEAR(ShipDate), MONTH(ShipDate), 1) AS Month,\n  SKU,\n  SUM(Variance) AS variance\nFROM vw_Variance\nWHERE ShipDate BETWEEN @from AND @to\n  AND (@carrier IS NULL OR Carrier = @carrier)\n  AND (@sku IS NULL OR SKU = @sku)\nGROUP BY DATEFROMPARTS(YEAR(ShipDate), MONTH(ShipDate), 1), SKU\nORDER BY Month, SKU\n"),
    ("fuel_surcharge_series",
      "\nSELECT\n  EffectiveDate,\n  Percent\nFROM vw_FuelSurcharge\nWHERE EffectiveDate BETWEEN @from AND @to\n  AND (@carrier IS NULL OR Carrier = @carrier)\nORDER BY EffectiveDate\n") ]

/-- `TEMPLATES.get(name)` / `self._templates.get(template)`. -/
def lookupTemplate (ts : List (String × String)) (nm : String) : Option String :=
  (ts.find? (fun p => p.1 == nm)).map (fun p => p.2)

/-! ## Error taxonomy and the bounded-retry policy
(`_post_with_retry`, identical in src/services/fabric_data_agent.py,
src/services/search_service.py and src/services/graph_service.py) -/

/-- Failure modes of the embedded agent code.  `unknownTemplate` is the
`ValueError` of `StructuredDataAgent.query`; `directTableAccess` and
`notReadOnly` are the two `PermissionError` guardrails; `connFailure` and
`httpError` are the exceptions escaping `_post_with_retry` after the last
attempt. -/
inductive AgentErr where
  | unknownTemplate
  | directTableAccess
  | notReadOnly
  | connFailure
  | httpError (status : Nat)
deriving DecidableEq, Repr

/-- Outcome of a single `requests.post` invocation: a connection-level
exception, or an HTTP response with a status code and a parsed body. -/
inductive PostOutcome (β : Type) where
  | conn
  | resp (status : Nat) (body : β)
deriving DecidableEq, Repr

/-- The status set `{429, 500, 502, 503, 504}` retried by
`_post_with_retry`. -/
def retryStatus (c : Nat) : Bool :=
  c == 429 || c == 500 || c == 502 || c == 503 || c == 504

/-- One iteration of the `for attempt in range(3)` loop of
`_post_with_retry`.  `none` means the loop continues to the next attempt;
`some` is the value returned or the exception raised.  On a response, the
loop first retries retryable statuses when attempts remain, then
`raise_for_status()` raises for any status `≥ 400` — an exception that the
blanket `except` clause also converts into a retry when attempts remain
and re-raises on the last attempt.  A connection failure likewise retries
until the last attempt. -/
def postStep (o : PostOutcome β) (isLast : Bool) : Option (Except AgentErr (Nat × β)) :=
  match o with
  | .conn => if isLast then some (.error .connFailure) else none
  | .resp status body =>
    if retryStatus status && !isLast then none
    else if 400 ≤ status then
      if isLast then some (.error (.httpError status)) else none
    else some (.ok (status, body))

/-- The error raised by the last attempt (`if attempt == 2: raise`). -/
def outcomeErr (o : PostOutcome β) : AgentErr :=
  match o with
  | .conn => .connFailure
  | .resp status _ => .httpError status

/-- A post outcome that raises inside the loop body: a connection failure,
or a response whose status makes `raise_for_status()` raise (`≥ 400`;
every retryable status is of this kind). -/
def outcomeFailsB (o : PostOutcome β) : Bool :=
  match o with
  | .conn => true
  | .resp status _ => 400 ≤ status

/-- `_post_with_retry` over an attempt-indexed backend oracle: the three
attempts of the loop, together with the number of `requests.post`
invocations actually performed.  The trailing `requests.post` after the
loop in the source is unreachable (attempt 2 always returns or raises). -/
def postWithRetry (backend : Nat → PostOutcome β) :
    Except AgentErr (Nat × β) × Nat :=
  match postStep (backend 0) false with
  | some r => (r, 1)
  | none =>
    match postStep (backend 1) false with
    | some r => (r, 2)
    | none =>
      match postStep (backend 2) true with
      | some r => (r, 3)
      | none => (.error (outcomeErr (backend 2)), 3)

/-! ## `FabricDataAgent.run_sql_params` (HTTP mode, the default) and
`StructuredDataAgent.query` -/

/-- `run_sql_params` in the default HTTP mode: the read-only guardrail,
then the retried POST whose JSON body's `rows` field is returned.  The
result is paired with the number of backend invocations (`0` when the
guardrail raises before any network call). -/
def runSqlParams (backend : Nat → PostOutcome (List ρ)) (sql : String)
    (_parameters : List (String × String)) : Except AgentErr (List ρ) × Nat :=
  if ensureReadOnly sql then
    match postWithRetry backend with
    | (.ok (_, rows), n) => (.ok rows, n)
    | (.error e, n) => (.error e, n)
  else (.error .notReadOnly, 0)

/-- The HTTP payload built by `run_sql_params`:
`{"query": sql, "parameters": [{"name": k, "value": v} for k, v in parameters.items()]}` —
the statement text together with every supplied parameter, unfiltered. -/
def runSqlHttpPayload (sql : String) (parameters : List (String × String)) :
    String × List (String × String) :=
  (sql, parameters)

/-- `StructuredDataAgent.query`: template lookup (raising `ValueError` on
a miss), the view-only guardrail, then `run_sql_params`.  Paired with the
number of SQL backend invocations. -/
def structuredQuery (ts : List (String × String))
    (backend : Nat → PostOutcome (List ρ)) (template : String)
    (parameters : List (String × String)) : Except AgentErr (List ρ) × Nat :=
  match lookupTemplate ts template with
  | none => (.error .unknownTemplate, 0)
  | some sql =>
    if ensureViewOnly sql then runSqlParams backend sql parameters
    else (.error .directTableAccess, 0)

/-- The parameters component of the HTTP payload that
`StructuredDataAgent.query` hands to the executor when both guardrails
pass, or the error raised before any call. -/
def structuredQueryPayload (ts : List (String × String)) (template : String)
    (parameters : List (String × String)) :
    Except AgentErr (String × List (String × String)) :=
  match lookupTemplate ts template with
  | none => .error .unknownTemplate
  | some sql =>
    if ensureViewOnly sql then
      if ensureReadOnly sql then .ok (runSqlHttpPayload sql parameters)
      else .error .notReadOnly
    else .error .directTableAccess

/-! ## Dates (`datetime.date` as used by `_infer_time_range`) -/

/-- A `datetime.date`: proleptic Gregorian calendar date. -/
structure PyDate where
  year : Int
  month : Nat
  day : Nat
deriving DecidableEq, Repr

/-- Gregorian leap-year rule, as implemented by `datetime`. -/
def isLeap (y : Int) : Bool := y % 4 == 0 && (y % 100 != 0 || y % 400 == 0)

/-- Number of days in a month of the Gregorian calendar. -/
def daysInMonth (y : Int) (m : Nat) : Nat :=
  if m == 2 then (if isLeap y then 29 else 28)
  else if m == 4 || m == 6 || m == 9 || m == 11 then 30
  else 31

/-- `d - timedelta(days=1)` for a valid date `d`. -/
def predDay (d : PyDate) : PyDate :=
  if 1 < d.day then ⟨d.year, d.month, d.day - 1⟩
  else if 1 < d.month then ⟨d.year, d.month - 1, daysInMonth d.year (d.month - 1)⟩
  else ⟨d.year - 1, 12, 31⟩

/-- Date comparison (lexicographic on year, month, day). -/
def dateLe (a b : PyDate) : Bool :=
  a.year < b.year ||
    (a.year == b.year &&
      (a.month < b.month || (a.month == b.month && a.day ≤ b.day)))

/-- Left-pad a numeral with zeros to the given width. -/
def padNum (width n : Nat) : String :=
  let s := toString n
  String.mk (List.replicate (width - s.length) '0') ++ s

/-- `d.strftime("%Y-%m-%d")` (`_fmt` inside `_infer_time_range`). -/
def fmtDate (d : PyDate) : String :=
  padNum 4 d.year.toNat ++ "-" ++ padNum 2 d.month ++ "-" ++ padNum 2 d.day

/-! ## `_infer_time_range` (src/agents/orchestrator.py) -/

/-- The last-day-of-month computation used throughout `_infer_time_range`:
the first day of the following month minus one day, with the December
wrap-around handled explicitly as in the source. -/
def monthEndFrom (y : Int) (m : Nat) : PyDate :=
  if m == 12 then predDay ⟨y + 1, 1, 1⟩ else predDay ⟨y, m + 1, 1⟩

/-- `_infer_time_range(query)` with `date.today()` made explicit.  A
nonempty result `{"@from": f, "@to": t}` is `some (f, t)` (the dict has
exactly those two keys whenever it is nonempty); `{}` is `none`.  Dates
are kept structured here; the orchestrator formats them with `fmtDate`
when merging into the parameter map. -/
def inferTimeRange (query : String) (today : PyDate) : Option (PyDate × PyDate) :=
  if qcontains query "last year" then
    some (⟨today.year - 1, 1, 1⟩, ⟨today.year - 1, 12, 31⟩)
  else if qcontains query "this year" then
    some (⟨today.year, 1, 1⟩, ⟨today.year, 12, 31⟩)
  else if qcontains query "last month" then
    let ym : Int × Nat :=
      if today.month - 1 == 0 then (today.year - 1, 12)
      else (today.year, today.month - 1)
    some (⟨ym.1, ym.2, 1⟩, monthEndFrom ym.1 ym.2)
  else if qcontains query "this month" then
    some (⟨today.year, today.month, 1⟩, monthEndFrom today.year today.month)
  else if qcontains query "quarter" then
    let qIdx := (today.month - 1) / 3 + 1
    let qy : Nat × Int :=
      if qcontains query "last quarter" then
        (if qIdx - 1 == 0 then (4, today.year - 1) else (qIdx - 1, today.year))
      else (qIdx, today.year)
    let startMonth := 3 * (qy.1 - 1) + 1
    let endMonth := startMonth + 2
    some (⟨qy.2, startMonth, 1⟩, monthEndFrom qy.2 endMonth)
  else none

/-- Specification-side interval: the named calendar year. -/
def yearRange (y : Int) : PyDate × PyDate := (⟨y, 1, 1⟩, ⟨y, 12, 31⟩)

/-- Specification-side interval: first to last day of the named calendar
month. -/
def monthRange (y : Int) (m : Nat) : PyDate × PyDate :=
  (⟨y, m, 1⟩, ⟨y, m, daysInMonth y m⟩)

/-- Specification-side interval: first to last day of the named fixed
calendar quarter (quarter `q` spans months `3q-2` to `3q`). -/
def quarterRange (y : Int) (q : Nat) : PyDate × PyDate :=
  (⟨y, 3 * q - 2, 1⟩, ⟨y, 3 * q, daysInMonth y (3 * q)⟩)

/-- The fixed calendar quarter containing month `m` (months 1–3 are
quarter 1, …, months 10–12 are quarter 4). -/
def curQuarter (m : Nat) : Nat := (m - 1) / 3 + 1

/-- The calendar month preceding `today`'s month, as (year, month). -/
def prevYM (today : PyDate) : Int × Nat :=
  if today.month == 1 then (today.year - 1, 12) else (today.year, today.month - 1)

/-- The calendar quarter preceding `today`'s quarter, as (year, quarter). -/
def prevQuarter (today : PyDate) : Int × Nat :=
  if curQuarter today.month == 1 then (today.year - 1, 4)
  else (today.year, curQuarter today.month - 1)

/-! ## `extract_param_value` (src/utils/helpers.py) -/

/-- The value part of the regex
`key[:=\s]+(?:(['"])(.*?)\1|([\w\-.]+))`, matched at a position directly
after an occurrence of `key`: at least one `[:=\s]` separator (greedy;
the separator, quote and value character classes are pairwise disjoint,
so the greedy munch is exact), then either a quoted value — the lazy
`(.*?)` runs to the first matching quote and cannot cross a newline — or
a maximal nonempty run of `[\w\-.]` characters. -/
def parseValueAt (s : List Char) : Option (List Char) :=
  let seps := s.takeWhile isSepC
  if seps.length == 0 then none
  else
    let rest := s.drop seps.length
    match rest with
    | [] => none
    | c :: r2 =>
      if isQuoteC c then
        let content := r2.takeWhile (fun x => !(x == c) && !(x == '\n'))
        match r2.drop content.length with
        | d :: _ => if d == c then some content else none
        | [] => none
      else
        let v := rest.takeWhile isValC
        if v.length == 0 then none else some v

/-- `re.search` scan for the helper's pattern: leftmost occurrence of the
(case-insensitively matched) key followed by a parsable value. -/
def findKeyValue (key : List Char) : Nat → List Char → Option (List Char)
  | 0, _ => none
  | fuel + 1, s =>
    match s with
    | [] => none
    | _ :: rest =>
      if startsWithCI s key then
        match parseValueAt (s.drop key.length) with
        | some v => some v
        | none => findKeyValue key fuel rest
      else findKeyValue key fuel rest

/-- `extract_param_value(text, key)` from src/utils/helpers.py (the copy
in the agent gateway, `_extract_value`, is identical). -/
def extractParamValue (text key : String) : Option String :=
  (findKeyValue (lowerChars key.toList) (text.length + 1) text.toList).map
    (fun l => String.mk l)

/-- Python truthiness of an optional string: `None` and `""` are falsy. -/
def pyTruthy (o : Option String) : Bool :=
  match o with
  | none => false
  | some s => !(s == "")

/-- Python `a or b` on optional strings. -/
def pyOr (a b : Option String) : Option String := if pyTruthy a then a else b

/-! ## `classify` (src/agents/router.py) -/

/-- The router's `ToolCall` dict. -/
structure ToolCall where
  tool : String
  tname : String
  params : List (String × String)
deriving DecidableEq, Repr

/-- `classify(query)`: the ordered keyword-rule table of the router. -/
def classify (query : String) : ToolCall :=
  if [ "variance", "overbill", "how much", "total", "rate " ].any
      (fun k => qcontains query k) then
    if qcontains query "service" || qcontains query "by service" then
      ⟨"sql", "variance_by_service", []⟩
    else if qcontains query "on-time" || qcontains query "on time" ||
        qcontains query "sla" then
      ⟨"sql", "on_time_rate", []⟩
    else ⟨"sql", "variance_summary", []⟩
  else if [ "email from", "calendar on", "file named", "in sharepoint",
      "from user " ].any (fun k => qcontains query k) then
    ⟨"graph", "lookup", []⟩
  else ⟨"rag", "contract_lookup", []⟩

/-! ## Parameter maps (Python dicts, insertion-ordered) -/

/-- `k in params` for the association-list model of a dict. -/
def hasKey (ps : List (String × String)) (k : String) : Bool :=
  ps.any (fun p => p.1 == k)

/-- `params[k] = v`: replace in place when the key exists (dicts keep the
original insertion position), append otherwise. -/
def setKey (ps : List (String × String)) (k v : String) :
    List (String × String) :=
  if hasKey ps k then ps.map (fun p => if p.1 == k then (k, v) else p)
  else ps ++ [(k, v)]

/-- `{**params, **_infer_time_range(query)}`: overlay the inferred
`@from`/`@to` entries (in that order) onto the decision parameters. -/
def mergeTimeRange (ps : List (String × String))
    (r : Option (PyDate × PyDate)) : List (String × String) :=
  match r with
  | none => ps
  | some (f, t) => setKey (setKey ps "@from" (fmtDate f)) "@to" (fmtDate t)

/-- The parameter-binding block that both `OrchestratorAgent.handle` and
`handle_with_citations` run on the SQL path: fill `@from`/`@to` from
`_infer_time_range` when either is missing, then add `@carrier`, `@sku`
and `@service` whenever `extract_param_value` finds a truthy value in the
query text. -/
def sqlBindParams (query : String) (ps0 : List (String × String))
    (today : PyDate) : List (String × String) :=
  let ps :=
    if !(hasKey ps0 "@from") || !(hasKey ps0 "@to") then
      mergeTimeRange ps0 (inferTimeRange query today)
    else ps0
  let carrier := extractParamValue query "carrier"
  let sku := extractParamValue query "sku"
  let service :=
    pyOr (extractParamValue query "service level")
      (extractParamValue query "service")
  let ps := if pyTruthy carrier then setKey ps "@carrier" (carrier.getD "") else ps
  let ps := if pyTruthy sku then setKey ps "@sku" (sku.getD "") else ps
  let ps := if pyTruthy service then setKey ps "@service" (service.getD "") else ps
  ps

/-! ## `GraphService` (src/services/graph_service.py) -/

/-- The `_source` object of a search hit: the three fields the client
reads. -/
structure GSource where
  subject : Option String := none
  sname : Option String := none
  displayName : Option String := none
deriving DecidableEq, Repr

/-- A hit container (`hitsContainers` entry): its list of hit sources. -/
structure GContainer where
  hits : List GSource
deriving DecidableEq, Repr

/-- One entry of the response's `value` array. -/
structure GRequestResult where
  hitsContainers : List GContainer
deriving DecidableEq, Repr

/-- The parsed JSON body of a Graph search response (`value` array). -/
def GraphBody : Type := List GRequestResult

/-- `source.get("subject") or source.get("name") or source.get("displayName")`
with Python truthiness, then the `if name:` filter. -/
def hitDisplay (s : GSource) : Option String :=
  let nm := pyOr (pyOr s.subject s.sname) s.displayName
  if pyTruthy nm then nm else none

/-- The nested result-collection loops of `GraphService.get_resource`. -/
def graphNames (body : GraphBody) : List String :=
  (body.map (fun req =>
    (req.hitsContainers.map (fun c =>
      c.hits.filterMap hitDisplay)).flatten)).flatten

/-- `GraphService.get_resource`: the whole body runs inside
`try: ... except Exception: return []`, so any failure of the retried
POST yields the empty list; on success the hit names are collected.  The
function is total — it cannot raise. -/
def getResource (backend : Nat → PostOutcome GraphBody) : List String :=
  match postWithRetry backend with
  | (.ok (_, body), _) => graphNames body
  | (.error _, _) => []

/-! ## `SearchService.search` result extraction
(src/services/search_service.py) -/

/-- One document of a search response's `value` array (the fields the
client reads). -/
structure SDoc where
  content : Option String := none
  text : Option String := none
  file : Option String := none
  page : Option Nat := none
  clauseId : Option String := none
deriving DecidableEq, Repr

/-- `d.get("content") or d.get("text", "")` with Python truthiness. -/
def sdocText (d : SDoc) : String :=
  (pyOr d.content d.text).getD ""

/-- `SearchService.search` in plain mode: the retried POST, then the
text of each returned document. -/
def searchPlain (backend : Nat → PostOutcome (List SDoc)) :
    Except AgentErr (List String) × Nat :=
  match postWithRetry backend with
  | (.ok (_, docs), n) => (.ok (docs.map sdocText), n)
  | (.error e, n) => (.error e, n)

/-! ## `OrchestratorAgent.handle_with_citations` (src/agents/orchestrator.py)
and the agent gateway (src/functions/agent_gateway/__init__.py) -/

/-- Lexicographic comparison of character lists by code point (Python
string ordering for `sorted`). -/
def charsLeB : List Char → List Char → Bool
  | [], _ => true
  | _ :: _, [] => false
  | a :: xs, b :: ys =>
    if a.toNat < b.toNat then true
    else if b.toNat < a.toNat then false
    else charsLeB xs ys

/-- Insert a string into a sorted list. -/
def insertStr (x : String) : List String → List String
  | [] => [x]
  | y :: ys =>
    if charsLeB x.toList y.toList then x :: y :: ys else y :: insertStr x ys

/-- Insertion sort on strings. -/
def sortStrs : List String → List String
  | [] => []
  | x :: xs => insertStr x (sortStrs xs)

/-- Remove adjacent duplicates of a sorted list. -/
def dedupAdj : List String → List String
  | [] => []
  | [x] => [x]
  | x :: y :: ys => if x == y then dedupAdj (y :: ys) else x :: dedupAdj (y :: ys)

/-- `_extract_views_from_template`: `sorted(set(...))` of the FROM/JOIN
identifiers of the named template's text, looked up in the module-level
`TEMPLATES` with `.get(template, "")`. -/
def extractViewsFromTemplate (template : String) : List String :=
  dedupAdj (sortStrs (extractNames ((lookupTemplate TEMPLATES template).getD "")))

/-- A metadata document produced by `search_with_meta` (always a dict
with these keys in `UnstructuredDataAgent`). -/
structure MDoc where
  text : String
  file : Option String := none
  page : Option Nat := none
  clauseId : Option String := none
deriving DecidableEq, Repr

/-- A citation dict; absent optional keys are `none`, and an absent
`views` key is the empty list (the source omits the key exactly when the
list is empty). -/
inductive Citation where
  | table (source : String) (template : String)
      (parameters : List (String × String)) (views : List String)
  | passage (rank : Nat) (excerpt : String) (file : Option String)
      (page : Option Nat) (clauseId : Option String)
  | graphCite (query : String) (count : Nat)
deriving DecidableEq, Repr

/-- The `result` field of the evidence envelope: SQL rows or passage
texts. -/
inductive ResVal (ρ : Type) where
  | rows (rs : List ρ)
  | texts (ts : List String)
deriving DecidableEq, Repr

/-- The evidence envelope returned by `handle_with_citations` (and, with
`powerBiLink` possibly filled in, by `handle_agent_query`).  The fields
`truncated`, `resultTotal` and `resultReturned` model the optional dict
keys of those names; no code under the sources assigns them, so they can
only ever be `none` in this embedding. -/
structure Envelope (ρ : Type) where
  tool : String
  result : ResVal ρ
  sampleRows : List ρ := []
  citations : List Citation := []
  truncated : Option Bool := none
  resultTotal : Option Nat := none
  resultReturned : Option Nat := none
  powerBiLink : Option String := none
deriving DecidableEq, Repr

/-- Pair the elements of a list with 1-based ranks (`enumerate`). -/
def withRanks (k : Nat) : List α → List (Nat × α)
  | [] => []
  | x :: xs => (k, x) :: withRanks (k + 1) xs

/-- The SQL-path envelope of `handle_with_citations`. -/
def sqlEnvelope (template : String) (parameters : List (String × String))
    (rows : List ρ) : Envelope ρ :=
  { tool := "fabric_sql", result := .rows rows, sampleRows := rows.take 3,
    citations :=
      [ .table "fabric" template parameters (extractViewsFromTemplate template) ] }

/-- The graph-path envelope of `handle_with_citations`. -/
def graphEnvelope (query : String) (data : List String) : Envelope ρ :=
  { tool := "graph", result := .texts data,
    citations := [ .graphCite query data.length ] }

/-- `OrchestratorAgent._needs_graph`. -/
def needsGraphB (query : String) : Bool :=
  [ "email", "calendar", "file", "meeting" ].any (fun k => qcontains query k)

/-- The backends an orchestrator instance is wired to.  `graph` is `none`
when no graph service was injected; `searchMeta` is `none` when the
unstructured agent has no `search_with_meta` (the `AttributeError`
branch), and otherwise gives the metadata documents returned for a query;
`searchText` is the plain `search` result.  The document-search backends
are modelled as the data they deliver. -/
structure OrchCtx (ρ : Type) where
  templates : List (String × String)
  sqlBackend : Nat → PostOutcome (List ρ)
  graph : Option (Nat → PostOutcome GraphBody) := none
  searchMeta : Option (String → List MDoc) := none
  searchText : String → List String

/-- The document-search tail of `handle_with_citations`: prefer
`search_with_meta`; on `AttributeError`, fall back to plain `search` and
cite the first five passages while returning the full list; with
metadata, both the result texts and the citations come from the first
five documents. -/
def docEnvelope (ctx : OrchCtx ρ) (query : String) : Envelope ρ :=
  match ctx.searchMeta with
  | none =>
    let data := ctx.searchText query
    { tool := "ai_search", result := .texts data,
      citations := (withRanks 1 (data.take 5)).map
        (fun rp => .passage rp.1 (rp.2.take 200) none none none) }
  | some f =>
    let docs := f query
    let top := docs.take 5
    { tool := "ai_search", result := .texts (top.map (fun d => d.text)),
      citations := (withRanks 1 top).map (fun rd =>
        .passage rd.1 (rd.2.text.take 200)
          (if pyTruthy rd.2.file then rd.2.file else none)
          rd.2.page
          (if pyTruthy rd.2.clauseId then rd.2.clauseId else none)) }

/-- The code after the `try` block of `handle_with_citations` on the
string path: the keyword fallback to the graph service, then the
document search. -/
def orchFallback (ctx : OrchCtx ρ) (query : String) : Envelope ρ :=
  match ctx.graph with
  | some gb => if needsGraphB query then graphEnvelope query (getResource gb)
               else docEnvelope ctx query
  | none => docEnvelope ctx query

/-- A query as accepted by `handle_with_citations`: a pre-formed
`(template, params)` tuple, or free text. -/
inductive OrchQuery where
  | pre (template : String) (params : List (String × String))
  | text (q : String)

/-- `OrchestratorAgent.handle_with_citations`, paired with the number of
SQL-backend invocations.  On the tuple path exceptions propagate to the
caller.  On the free-text path the whole classify/SQL/graph section runs
inside `try: ... except Exception: pass`, so any error raised by
`StructuredDataAgent.query` (unknown template, guardrail violation, or a
backend failure surviving the retries) is swallowed and control falls
through to `orchFallback`. -/
def handleWithCitations (ctx : OrchCtx ρ) (query : OrchQuery)
    (today : PyDate) : Except AgentErr (Envelope ρ) × Nat :=
  match query with
  | .pre template params =>
    match structuredQuery ctx.templates ctx.sqlBackend template params with
    | (.ok rows, n) => (.ok (sqlEnvelope template params rows), n)
    | (.error e, n) => (.error e, n)
  | .text q =>
    let dec := classify q
    if dec.tool == "sql" then
      let params := sqlBindParams q dec.params today
      match structuredQuery ctx.templates ctx.sqlBackend dec.tname params with
      | (.ok rows, n) => (.ok (sqlEnvelope dec.tname params rows), n)
      | (.error _, n) => (.ok (orchFallback ctx q), n)
    else if dec.tool == "graph" then
      match ctx.graph with
      | some gb => (.ok (graphEnvelope q (getResource gb)), 0)
      | none => (.ok (orchFallback ctx q), 0)
    else (.ok (orchFallback ctx q), 0)

/-- `handle_agent_query` (src/functions/agent_gateway/__init__.py): run
`handle_with_citations` and, when the SQL tool answered, attach the
deep link produced by the excluded `build_pbi_deeplink` collaborator
(modelled by the `pbi` argument; it is `none` whenever the deep-link
configuration is absent).  No other field of the envelope is touched —
in particular no result capping and no `truncated`/`resultTotal`/
`resultReturned` bookkeeping happens here. -/
def handleAgentQuery (ctx : OrchCtx ρ) (query : String) (today : PyDate)
    (pbi : Option String) : Except AgentErr (Envelope ρ) × Nat :=
  match handleWithCitations ctx (.text query) today with
  | (.ok env, n) =>
    (.ok (if env.tool == "fabric_sql" then { env with powerBiLink := pbi }
          else env), n)
  | (.error e, n) => (.error e, n)

/-! ## Helper lemmas -/

theorem daysInMonth_pos (y : Int) (m : Nat) : 1 ≤ daysInMonth y m := by
  unfold daysInMonth
  split_ifs <;> omega

theorem monthEndFrom_eq (y : Int) (m : Nat) (h1 : 1 ≤ m) (h2 : m ≤ 12) :
    monthEndFrom y m = ⟨y, m, daysInMonth y m⟩ := by
  rcases eq_or_ne m 12 with h12 | h12
  · subst h12
    simp [monthEndFrom, predDay, daysInMonth]
  · have hb : (m == 12) = false := by simp [h12]
    have hm1 : 1 < m + 1 := by omega
    simp [monthEndFrom, predDay, daysInMonth, hb, hm1]

theorem postStep_retry_of_fails (o : PostOutcome β)
    (h : outcomeFailsB o = true) : postStep o false = none := by
  cases o with
  | conn => rfl
  | resp st body =>
    simp only [outcomeFailsB, decide_eq_true_eq] at h
    by_cases hr : retryStatus st = true <;> simp [postStep, hr, h]

theorem postStep_last_of_fails (o : PostOutcome β)
    (h : outcomeFailsB o = true) :
    postStep o true = some (.error (outcomeErr o)) := by
  cases o with
  | conn => rfl
  | resp st body =>
    simp only [outcomeFailsB, decide_eq_true_eq] at h
    simp [postStep, outcomeErr, h]

theorem ensureViewOnly_false_of_bad (sql : String)
    (hex : ∃ n ∈ extractNames sql, allowName n = false ∧ denyName n = true) :
    ensureViewOnly sql = false := by
  rcases hex with ⟨n, hn, hna, hnd⟩
  unfold ensureViewOnly
  cases hall : (extractNames sql).all viewCheckName
  · rfl
  · have hcheck := (List.all_eq_true.mp hall) n hn
    rw [viewCheckName, hna, hnd] at hcheck
    simp at hcheck

/-! ## Claim C3 -/

/-- C3: every template registered in `TEMPLATES` has `SELECT` or `WITH` as
the first keyword of its text after stripping leading comments; and
`run_sql_params` rejects any SQL string violating this with a permission
error before issuing any network call (zero backend invocations). -/
theorem claim_C3_templates_read_only :
    (TEMPLATES.all (fun p => ensureReadOnly p.2) = true) ∧
    ∀ (ρ : Type) (backend : Nat → PostOutcome (List ρ)) (sql : String)
      (ps : List (String × String)), ensureReadOnly sql = false →
      runSqlParams backend sql ps = (.error .notReadOnly, 0) := by
  refine ⟨by decide, ?_⟩
  intro ρ backend sql ps h
  simp [runSqlParams, h]

/-- C3 witness: the non-SELECT statement from `test_sql_readonly.py` is
rejected with zero backend invocations. -/
theorem claim_C3_witness :
    ensureReadOnly "DELETE FROM t" = false ∧
    runSqlParams (ρ := Unit) (fun _ => .conn) "DELETE FROM t" [] =
      (.error .notReadOnly, 0) :=
  ⟨by decide,
    claim_C3_templates_read_only.2 Unit (fun _ => .conn) "DELETE FROM t" []
      (by decide)⟩

/-! ## Claim C4 -/

/-- C4: executing through `StructuredDataAgent.query` a template one of
whose FROM/JOIN identifiers fails the curated-view convention and matches
a disallowed prefix raises the permission error with the SQL executor
invoked zero times; and an identifier matching neither the allow
convention nor the deny prefixes passes the per-identifier check. -/
theorem claim_C4_view_only_guardrail :
    (∀ (ρ : Type) (backend : Nat → PostOutcome (List ρ))
       (ts : List (String × String)) (nm sql : String)
       (ps : List (String × String)),
       lookupTemplate ts nm = some sql →
       (∃ n ∈ extractNames sql, allowName n = false ∧ denyName n = true) →
       structuredQuery ts backend nm ps = (.error .directTableAccess, 0)) ∧
    ∀ n : String, allowName n = false → denyName n = false →
      viewCheckName n = true := by
  constructor
  · intro ρ backend ts nm sql ps hl hex
    have hv := ensureViewOnly_false_of_bad sql hex
    simp [structuredQuery, hl, hv]
  · intro n hna hnd
    simp [viewCheckName, hna, hnd]

/-- C4 witness: the direct-table template from
`test_view_only_templates.py` is rejected with zero executor invocations,
and the unlisted identifier `Orders` passes the check. -/
theorem claim_C4_witness :
    structuredQuery (ρ := Unit)
      [("bad", "SELECT * FROM dbo.FactInvoice WHERE Carrier=@carrier")]
      (fun _ => .conn) "bad" [("@carrier", "X")] =
      (.error .directTableAccess, 0) ∧
    viewCheckName "Orders" = true :=
  ⟨claim_C4_view_only_guardrail.1 Unit (fun _ => .conn)
      [("bad", "SELECT * FROM dbo.FactInvoice WHERE Carrier=@carrier")]
      "bad" "SELECT * FROM dbo.FactInvoice WHERE Carrier=@carrier"
      [("@carrier", "X")] (by decide)
      ⟨"dbo.FactInvoice", by decide, by decide, by decide⟩,
    claim_C4_view_only_guardrail.2 "Orders" (by decide) (by decide)⟩

/-! ## Claim C2 -/

/-- C2 counterexample: the claim says a supplied parameter whose
placeholder does not occur in the bound template's text is dropped before
the executor call.  It is not: `variance_summary`'s text does not contain
the token `@carrier`, yet the HTTP payload built by `run_sql_params`
forwards the supplied `@carrier` entry unchanged. -/
theorem claim_C2_counterexample :
    lookupTemplate TEMPLATES "variance_summary" = some VARIANCE_SUMMARY ∧
    containsL VARIANCE_SUMMARY.toList "@carrier".toList = false ∧
    structuredQueryPayload TEMPLATES "variance_summary"
      [("@from", "2024-01-01"), ("@to", "2024-01-31"), ("@carrier", "Acme")] =
      .ok (VARIANCE_SUMMARY,
        [("@from", "2024-01-01"), ("@to", "2024-01-31"), ("@carrier", "Acme")]) :=
  ⟨rfl, rfl, rfl⟩

/-- C2 amended: on the default HTTP path, whenever both guardrails pass,
the parameter map forwarded with the statement is exactly the supplied
raw parameter map, unfiltered — placeholder keys absent from the
template's text are forwarded too, not dropped. -/
theorem claim_C2_amended_unfiltered_forwarding :
    ∀ (ts : List (String × String)) (nm sql : String)
      (ps : List (String × String)),
      lookupTemplate ts nm = some sql → ensureViewOnly sql = true →
      ensureReadOnly sql = true →
      structuredQueryPayload ts nm ps = .ok (sql, ps) := by
  intro ts nm sql ps hl hv hr
  simp [structuredQueryPayload, hl, hv, hr, runSqlHttpPayload]

/-- C2 amended, witness: the `variance_summary` template forwards the
whole supplied map, including the textually absent `@carrier`. -/
theorem claim_C2_amended_witness :
    structuredQueryPayload TEMPLATES "variance_summary"
      [("@carrier", "Acme")] = .ok (VARIANCE_SUMMARY, [("@carrier", "Acme")]) :=
  claim_C2_amended_unfiltered_forwarding TEMPLATES "variance_summary"
    VARIANCE_SUMMARY [("@carrier", "Acme")] (by decide) (by decide) (by decide)

/-! ## Claim C1 -/

/-- An orchestrator whose injected structured agent carries a template
registry with a direct-table statement (as in
`test_view_only_templates.py`), no graph service, and a plain search
service. -/
def ctxC1 : OrchCtx Unit :=
  { templates :=
      [("variance_summary", "SELECT * FROM dbo.FactInvoice WHERE Carrier=@carrier")],
    sqlBackend := fun _ => .conn,
    graph := none, searchMeta := none,
    searchText := fun _ => ["fallback passage"] }

/-- C1 counterexample: the free-text query `"total spend"` is routed to
the SQL tool and its bound template fails the view-only guardrail, yet
`handle_with_citations` does not surface a rejected request — the
`except Exception: pass` swallows the `PermissionError` and the request
is silently answered by the document-search tool (the SQL backend is
invoked zero times). -/
theorem claim_C1_counterexample :
    (classify "total spend").tool = "sql" ∧
    handleWithCitations ctxC1 (.text "total spend") ⟨2026, 10, 12⟩ =
      (.ok { tool := "ai_search", result := .texts ["fallback passage"],
             citations := [.passage 1 "fallback passage" none none none] }, 0) :=
  ⟨rfl, rfl⟩

/-- C1 amended: lookup and guardrail failures on the SQL path do abort
before the backend result is used, but on the free-text path every error
raised by `StructuredDataAgent.query` (with `n = 0` backend invocations
for lookup/guardrail failures) is swallowed and the request falls through
to the graph-keyword/document-search fallback; only on the pre-formed
`(template, params)` path is the failure raised to the caller. -/
theorem claim_C1_amended_swallowed_downgrade :
    (∀ (ρ : Type) (ctx : OrchCtx ρ) (q : String) (today : PyDate)
       (e : AgentErr) (n : Nat),
       (classify q).tool = "sql" →
       structuredQuery ctx.templates ctx.sqlBackend (classify q).tname
         (sqlBindParams q (classify q).params today) = (.error e, n) →
       handleWithCitations ctx (.text q) today = (.ok (orchFallback ctx q), n)) ∧
    ∀ (ρ : Type) (ctx : OrchCtx ρ) (template : String)
      (ps : List (String × String)) (today : PyDate) (e : AgentErr) (n : Nat),
      structuredQuery ctx.templates ctx.sqlBackend template ps = (.error e, n) →
      handleWithCitations ctx (.pre template ps) today = (.error e, n) := by
  constructor
  · intro ρ ctx q today e n htool hq
    have htool' : ((classify q).tool == "sql") = true := by simp [htool]
    simp only [handleWithCitations, htool', if_true, hq]
  · intro ρ ctx template ps today e n hq
    simp only [handleWithCitations, hq]

/-- C1 amended, witness: in the concrete scenario of the counterexample
the guardrail failure falls through to the fallback envelope with zero
SQL-backend invocations. -/
theorem claim_C1_amended_witness :
    handleWithCitations ctxC1 (.text "total spend") ⟨2026, 10, 12⟩ =
      (.ok (orchFallback ctxC1 "total spend"), 0) :=
  claim_C1_amended_swallowed_downgrade.1 Unit ctxC1 "total spend"
    ⟨2026, 10, 12⟩ .directTableAccess 0 rfl rfl

/-! ## Claim C6 -/

/-- C6: under the shared `_post_with_retry` policy, (i) a backend failing
with HTTP 503 on attempt 1 and succeeding on attempt 2 yields the same
result as one succeeding on attempt 1, both for the raw retried POST and
lifted through `run_sql_params` (SQL) and `SearchService.search`
(document search); (ii) the backend is invoked at most 3 times in every
execution; (iii) when every attempt fails, the error of the last attempt
is raised to the caller. -/
theorem claim_C6_retry_policy :
    (∀ (β : Type) (b b2 : Nat → PostOutcome β) (e x : β),
       b 0 = .resp 503 e → b 1 = .resp 200 x → b2 0 = .resp 200 x →
       (postWithRetry b).1 = (postWithRetry b2).1 ∧
       (postWithRetry b).1 = .ok (200, x)) ∧
    (∀ (ρ : Type) (b b2 : Nat → PostOutcome (List ρ)) (e x : List ρ)
       (sql : String) (ps : List (String × String)),
       b 0 = .resp 503 e → b 1 = .resp 200 x → b2 0 = .resp 200 x →
       (runSqlParams b sql ps).1 = (runSqlParams b2 sql ps).1) ∧
    (∀ (b b2 : Nat → PostOutcome (List SDoc)) (e x : List SDoc),
       b 0 = .resp 503 e → b 1 = .resp 200 x → b2 0 = .resp 200 x →
       (searchPlain b).1 = (searchPlain b2).1) ∧
    (∀ (β : Type) (b : Nat → PostOutcome β), (postWithRetry b).2 ≤ 3) ∧
    ∀ (β : Type) (b : Nat → PostOutcome β),
      (∀ a, a < 3 → outcomeFailsB (b a) = true) →
      (postWithRetry b).1 = .error (outcomeErr (b 2)) := by
  have key : ∀ (β : Type) (b : Nat → PostOutcome β) (e x : β),
      b 0 = .resp 503 e → b 1 = .resp 200 x →
      postWithRetry b = (.ok (200, x), 2) := by
    intro β b e x h0 h1
    simp [postWithRetry, h0, h1, postStep, retryStatus]
  have key1 : ∀ (β : Type) (b2 : Nat → PostOutcome β) (x : β),
      b2 0 = .resp 200 x → postWithRetry b2 = (.ok (200, x), 1) := by
    intro β b2 x h0
    simp [postWithRetry, h0, postStep, retryStatus]
  refine ⟨?_, ?_, ?_, ?_, ?_⟩
  · intro β b b2 e x h0 h1 h2
    rw [key β b e x h0 h1, key1 β b2 x h2]
    exact ⟨rfl, rfl⟩
  · intro ρ b b2 e x sql ps h0 h1 h2
    unfold runSqlParams
    rw [key (List ρ) b e x h0 h1, key1 (List ρ) b2 x h2]
    by_cases hr : ensureReadOnly sql = true <;> simp [hr]
  · intro b b2 e x h0 h1 h2
    unfold searchPlain
    rw [key (List SDoc) b e x h0 h1, key1 (List SDoc) b2 x h2]
  · intro β b
    unfold postWithRetry
    rcases hs0 : postStep (b 0) false with _ | r0
    · rcases hs1 : postStep (b 1) false with _ | r1
      · rcases hs2 : postStep (b 2) true with _ | r2 <;> simp
      · simp
    · simp
  · intro β b hfail
    have h0 := postStep_retry_of_fails (b 0) (hfail 0 (by omega))
    have h1 := postStep_retry_of_fails (b 1) (hfail 1 (by omega))
    have h2 := postStep_last_of_fails (b 2) (hfail 2 (by omega))
    simp [postWithRetry, h0, h1, h2]

/-- C6 witness: a SQL backend answering 503 then 200 with one row gives
the same rows as a steady backend, within 3 invocations; a backend that
always answers 500 raises the HTTP error of its last attempt. -/
theorem claim_C6_witness :
    ((postWithRetry (fun a => if a == 0 then .resp 503 ([] : List String)
        else .resp 200 ["row"])).1 =
      (postWithRetry (fun _ => .resp 200 ["row"])).1) ∧
    (postWithRetry (fun _ => (.resp 500 () : PostOutcome Unit))).2 ≤ 3 ∧
    (postWithRetry (fun _ => (.resp 500 () : PostOutcome Unit))).1 =
      .error (.httpError 500) :=
  ⟨(claim_C6_retry_policy.1 (List String)
      (fun a => if a == 0 then .resp 503 [] else .resp 200 ["row"])
      (fun _ => .resp 200 ["row"]) [] ["row"] rfl rfl rfl).1,
    claim_C6_retry_policy.2.2.2.1 Unit (fun _ => .resp 500 ()),
    claim_C6_retry_policy.2.2.2.2 Unit (fun _ => .resp 500 ())
      (fun a _ => by simp [outcomeFailsB])⟩

/-! ## Claim C7 -/

/-- C7: any failure of the retried directory-search POST — in particular
an HTTP 500 persisting through all attempts, or persistent
connection-level errors — makes `GraphService.get_resource` return the
empty list; being a total function of the backend's outcomes, it never
raises to the caller. -/
theorem claim_C7_graph_graceful :
    (∀ (backend : Nat → PostOutcome GraphBody) (e : AgentErr),
       (postWithRetry backend).1 = .error e → getResource backend = []) ∧
    (∀ body : GraphBody, getResource (fun _ => .resp 500 body) = []) ∧
    getResource (fun _ => .conn) = [] := by
  refine ⟨?_, ?_, rfl⟩
  · intro backend e h
    unfold getResource
    rcases hp : postWithRetry backend with ⟨r, n⟩
    rw [hp] at h
    simp at h
    subst h
    rfl
  · intro body
    rfl

/-- C7 witness: a directory-search backend answering 500 on every attempt
yields the empty list through the error case of the retried POST. -/
theorem claim_C7_witness :
    getResource (fun _ => .resp 500 ([] : GraphBody)) = [] :=
  claim_C7_graph_graceful.1 (fun _ => .resp 500 []) (.httpError 500) rfl

/-! ## Claim C8 -/

/-- C8 (code bug): the query of
`test_orchestrator_defaults.py::test_structured_queries_get_default_time_range`
contains a numeric-intent keyword (the classifier selects the SQL tool)
and no explicit time phrase, yet the bound parameter map contains neither
`@from` nor `@to` — `_infer_time_range` yields the empty dict and no
default window is substituted, contradicting the repository's own test,
which asserts both keys are present with from ≤ to. -/
theorem claim_C8_missing_default_time_range :
    (classify "Show variance details for carrier: Contoso").tool = "sql" ∧
    inferTimeRange "Show variance details for carrier: Contoso"
      ⟨2026, 10, 12⟩ = none ∧
    sqlBindParams "Show variance details for carrier: Contoso" []
      ⟨2026, 10, 12⟩ = [("@carrier", "Contoso")] ∧
    hasKey (sqlBindParams "Show variance details for carrier: Contoso" []
      ⟨2026, 10, 12⟩) "@from" = false :=
  ⟨rfl, rfl, rfl, rfl⟩

/-! ## Claim C5 -/

/-- The gateway wiring of `test_gateway_capping.py`: the registered
templates, a SQL backend answering five rows, no graph service and no
search service in play. -/
def ctxC5 : OrchCtx String :=
  { templates := TEMPLATES,
    sqlBackend := fun _ => .resp 200 ["row0", "row1", "row2", "row3", "row4"],
    graph := none, searchMeta := none, searchText := fun _ => [] }

/-- C5 (code bug): with the backend returning 5 rows for the capping
test's query, `handle_agent_query` returns all 5 rows in the original
order and never populates `truncated`, `resultTotal` or `resultReturned`
(the envelope keeps their absent-key defaults): no code in the gateway or
the orchestrator reads the configured cap, contradicting
`test_gateway_capping.py`, which expects 2 rows and
`truncated=true, resultTotal=5, resultReturned=2` under a cap of 2. -/
theorem claim_C5_no_result_capping :
    handleAgentQuery ctxC5 "How much were we overbilled last quarter?"
      ⟨2026, 10, 12⟩ none =
      (.ok { tool := "fabric_sql",
             result := .rows ["row0", "row1", "row2", "row3", "row4"],
             sampleRows := ["row0", "row1", "row2"],
             citations := [.table "fabric" "variance_summary"
               [("@from", "2026-07-01"), ("@to", "2026-09-30")]
               ["AND", "vw_Variance"]] }, 1) :=
  rfl

/-! ## Claim C10 -/

/-- C10: on the document-search path, when the search client supports
metadata the result is exactly the text of the first 5 passages (later
passages are dropped from the result itself), and when it does not
(`search_with_meta` raises `AttributeError`) the full passage list from
the backend is passed through unchanged. -/
theorem claim_C10_meta_result_truncation :
    ∀ (ρ : Type) (ctx : OrchCtx ρ) (q : String) (today : PyDate),
      (classify q).tool = "rag" →
      (ctx.graph = none ∨ needsGraphB q = false) →
      (∀ f, ctx.searchMeta = some f →
        handleWithCitations ctx (.text q) today =
          (.ok (docEnvelope ctx q), 0) ∧
        (docEnvelope ctx q).result =
          .texts (((f q).take 5).map (fun d => d.text))) ∧
      (ctx.searchMeta = none →
        handleWithCitations ctx (.text q) today =
          (.ok (docEnvelope ctx q), 0) ∧
        (docEnvelope ctx q).result = .texts (ctx.searchText q)) := by
  intro ρ ctx q today htool hg
  have hsql : ((classify q).tool == "sql") = false := by simp [htool]
  have hgr : ((classify q).tool == "graph") = false := by simp [htool]
  have hfall : orchFallback ctx q = docEnvelope ctx q := by
    unfold orchFallback
    rcases hg with hgn | hng
    · rw [hgn]
    · cases hgc : ctx.graph with
      | none => rfl
      | some gb => rw [hng]; rfl
  have hmain : handleWithCitations ctx (.text q) today =
      (.ok (docEnvelope ctx q), 0) := by
    simp only [handleWithCitations, hsql, hgr, Bool.false_eq_true, if_false,
      hfall]
  constructor
  · intro f hf
    refine ⟨hmain, ?_⟩
    simp [docEnvelope, hf]
  · intro hf
    refine ⟨hmain, ?_⟩
    simp [docEnvelope, hf]

/-- Six metadata documents returned by a metadata-capable search client. -/
def sixDocs : List MDoc :=
  [⟨"p1", none, none, none⟩, ⟨"p2", none, none, none⟩,
   ⟨"p3", none, none, none⟩, ⟨"p4", none, none, none⟩,
   ⟨"p5", none, none, none⟩, ⟨"p6", none, none, none⟩]

/-- A metadata-capable orchestrator wiring for the contract-lookup
query. -/
def ctxC10 : OrchCtx Unit :=
  { templates := TEMPLATES, sqlBackend := fun _ => .conn, graph := none,
    searchMeta := some (fun _ => sixDocs), searchText := fun _ => [] }

/-- C10 witness: a metadata-capable client returning six passages for the
contract-lookup query yields exactly the first five texts as the
result. -/
theorem claim_C10_witness :
    handleWithCitations ctxC10 (.text "what does clause 7.4 say?")
      ⟨2026, 10, 12⟩ =
      (.ok (docEnvelope ctxC10 "what does clause 7.4 say?"), 0) ∧
    (docEnvelope ctxC10 "what does clause 7.4 say?").result =
      .texts ["p1", "p2", "p3", "p4", "p5"] := by
  have h := (claim_C10_meta_result_truncation Unit ctxC10
      "what does clause 7.4 say?" ⟨2026, 10, 12⟩ rfl (.inl rfl)).1
      (fun _ => sixDocs) rfl
  exact ⟨h.1, h.2.trans rfl⟩

/-! ## Claim C9 -/

theorem monthRange_build (y : Int) (m : Nat) (h1 : 1 ≤ m) (h2 : m ≤ 12) :
    ((⟨y, m, 1⟩ : PyDate), monthEndFrom y m) = monthRange y m := by
  unfold monthRange
  rw [monthEndFrom_eq y m h1 h2]

theorem quarterRange_build (y : Int) (k : Nat) (h1 : 1 ≤ k) (h2 : k ≤ 4) :
    ((⟨y, 3 * (k - 1) + 1, 1⟩ : PyDate), monthEndFrom y (3 * (k - 1) + 1 + 2)) =
      quarterRange y k := by
  unfold quarterRange
  have hm : 3 * (k - 1) + 1 + 2 = 3 * k := by omega
  have hs : 3 * (k - 1) + 1 = 3 * k - 2 := by omega
  rw [hm, hs, monthEndFrom_eq y (3 * k) (by omega) (by omega)]

theorem dateLe_yearRange (y : Int) :
    dateLe (yearRange y).1 (yearRange y).2 = true := by
  simp [dateLe, yearRange]

theorem dateLe_monthRange (y : Int) (m : Nat) :
    dateLe (monthRange y m).1 (monthRange y m).2 = true := by
  simp [dateLe, monthRange]
  exact daysInMonth_pos y m

theorem dateLe_quarterRange (y : Int) (k : Nat) (h1 : 1 ≤ k) :
    dateLe (quarterRange y k).1 (quarterRange y k).2 = true := by
  have hlt : 3 * k - 2 < 3 * k := by omega
  simp [dateLe, quarterRange, hlt]

/-- C9: for every valid current date, `_infer_time_range` maps the
recognized time phrases — checked in the source's priority order — to the
closed interval bounding exactly the named calendar year, calendar month
or fixed calendar quarter (year wrap-around included), always with
from ≤ to, and yields the empty map when no phrase occurs. -/
theorem claim_C9_infer_time_range (q : String) (today : PyDate)
    (hm1 : 1 ≤ today.month) (hm2 : today.month ≤ 12) :
    (qcontains q "last year" = true →
      inferTimeRange q today = some (yearRange (today.year - 1)) ∧
      dateLe (yearRange (today.year - 1)).1 (yearRange (today.year - 1)).2
        = true) ∧
    (qcontains q "last year" = false → qcontains q "this year" = true →
      inferTimeRange q today = some (yearRange today.year) ∧
      dateLe (yearRange today.year).1 (yearRange today.year).2 = true) ∧
    (qcontains q "last year" = false → qcontains q "this year" = false →
     qcontains q "last month" = true →
      inferTimeRange q today =
        some (monthRange (prevYM today).1 (prevYM today).2) ∧
      dateLe (monthRange (prevYM today).1 (prevYM today).2).1
        (monthRange (prevYM today).1 (prevYM today).2).2 = true) ∧
    (qcontains q "last year" = false → qcontains q "this year" = false →
     qcontains q "last month" = false → qcontains q "this month" = true →
      inferTimeRange q today = some (monthRange today.year today.month) ∧
      dateLe (monthRange today.year today.month).1
        (monthRange today.year today.month).2 = true) ∧
    (qcontains q "last year" = false → qcontains q "this year" = false →
     qcontains q "last month" = false → qcontains q "this month" = false →
     qcontains q "quarter" = true → qcontains q "last quarter" = true →
      inferTimeRange q today =
        some (quarterRange (prevQuarter today).1 (prevQuarter today).2) ∧
      dateLe (quarterRange (prevQuarter today).1 (prevQuarter today).2).1
        (quarterRange (prevQuarter today).1 (prevQuarter today).2).2 = true) ∧
    (qcontains q "last year" = false → qcontains q "this year" = false →
     qcontains q "last month" = false → qcontains q "this month" = false →
     qcontains q "quarter" = true → qcontains q "last quarter" = false →
      inferTimeRange q today =
        some (quarterRange today.year (curQuarter today.month)) ∧
      dateLe (quarterRange today.year (curQuarter today.month)).1
        (quarterRange today.year (curQuarter today.month)).2 = true) ∧
    (qcontains q "last year" = false → qcontains q "this year" = false →
     qcontains q "last month" = false → qcontains q "this month" = false →
     qcontains q "quarter" = false → inferTimeRange q today = none) := by
  have hq4 : 1 ≤ curQuarter today.month ∧ curQuarter today.month ≤ 4 := by
    unfold curQuarter
    omega
  refine ⟨?_, ?_, ?_, ?_, ?_, ?_, ?_⟩
  · intro h1
    refine ⟨?_, dateLe_yearRange _⟩
    simp [inferTimeRange, h1, yearRange]
  · intro h1 h2
    refine ⟨?_, dateLe_yearRange _⟩
    simp [inferTimeRange, h1, h2, yearRange]
  · intro h1 h2 h3
    refine ⟨?_, dateLe_monthRange _ _⟩
    rcases eq_or_ne today.month 1 with hm | hm
    · have hz : (today.month - 1 == 0) = true := by simp [hm]
      have hpm : prevYM today = (today.year - 1, 12) := by
        simp [prevYM, hm]
      rw [hpm]
      simp only [inferTimeRange, h1, h2, h3, hz, Bool.false_eq_true, if_false,
        if_true]
      rw [← monthRange_build (today.year - 1) 12 (by omega) (by omega)]
    · have hz : (today.month - 1 == 0) = false := by
        simp
        omega
      have hb1 : (today.month == 1) = false := by simp [hm]
      have hpm : prevYM today = (today.year, today.month - 1) := by
        simp [prevYM, hb1]
      rw [hpm]
      simp only [inferTimeRange, h1, h2, h3, hz, Bool.false_eq_true, if_false,
        if_true]
      rw [← monthRange_build today.year (today.month - 1) (by omega) (by omega)]
  · intro h1 h2 h3 h4
    refine ⟨?_, dateLe_monthRange _ _⟩
    simp only [inferTimeRange, h1, h2, h3, h4, Bool.false_eq_true, if_false,
      if_true]
    rw [← monthRange_build today.year today.month hm1 hm2]
  · intro h1 h2 h3 h4 h5 h6
    refine ⟨?_, ?_⟩
    · rcases eq_or_ne (curQuarter today.month) 1 with hq | hq
      · have hz : ((today.month - 1) / 3 + 1 - 1 == 0) = true := by
          unfold curQuarter at hq
          simp
          omega
        have hpq : prevQuarter today = (today.year - 1, 4) := by
          simp [prevQuarter, hq]
        rw [hpq]
        simp only [inferTimeRange, h1, h2, h3, h4, h5, h6, hz,
          Bool.false_eq_true, if_false, if_true]
        rw [← quarterRange_build (today.year - 1) 4 (by omega) (by omega)]
      · have hz : ((today.month - 1) / 3 + 1 - 1 == 0) = false := by
          unfold curQuarter at hq
          simp
          omega
        have hb1 : (curQuarter today.month == 1) = false := by simp [hq]
        have hpq : prevQuarter today =
            (today.year, curQuarter today.month - 1) := by
          simp [prevQuarter, hb1]
        rw [hpq]
        simp only [inferTimeRange, h1, h2, h3, h4, h5, h6, hz,
          Bool.false_eq_true, if_false, if_true]
        rw [← quarterRange_build today.year (curQuarter today.month - 1)
          (by omega) (by omega)]
        unfold curQuarter
        rfl
    · refine dateLe_quarterRange _ _ ?_
      unfold prevQuarter curQuarter
      split_ifs with h
      · omega
      · simp only [beq_iff_eq] at h
        omega
  · intro h1 h2 h3 h4 h5 h6
    refine ⟨?_, dateLe_quarterRange _ _ hq4.1⟩
    simp only [inferTimeRange, h1, h2, h3, h4, h5, h6, Bool.false_eq_true,
      if_false, if_true]
    rw [← quarterRange_build today.year (curQuarter today.month) hq4.1 hq4.2]
    unfold curQuarter
    rfl
  · intro h1 h2 h3 h4 h5
    simp [inferTimeRange, h1, h2, h3, h4, h5]

/-- C9 witness: `"variance last month"` seen on 2026-01-15 yields the
December 2025 interval, crossing the year boundary. -/
theorem claim_C9_witness :
    inferTimeRange "variance last month" ⟨2026, 1, 15⟩ =
      some (⟨2025, 12, 1⟩, ⟨2025, 12, 31⟩) ∧
    dateLe ⟨2025, 12, 1⟩ ⟨2025, 12, 31⟩ = true := by
  have h := (claim_C9_infer_time_range "variance last month" ⟨2026, 1, 15⟩
    (by decide) (by decide)).2.2.1 (by decide) (by decide) (by decide)
  exact ⟨h.1.trans (by decide), h.2⟩

end LeftTurn
